import Mathlib

/- Shallow embedding of the SHEIN voucher Telegram bot (src/bot.py):
the remote-check classification, the scan engine with its progress
reporting, the code-value lookup, the per-user session state, the
protection loop, and the command handlers.  Parsed JSON response
bodies are modelled by the list of their top-level keys; network and
chat transport are modelled by explicit parameters (a client function
for `_check_voucher`, ghost logs for outbound progress edits). -/

namespace SheinBot

/-- Result of `_check_voucher code`: the pair `(status_code, json_data)`.
`status = none` together with `data = none` is the `(None, None)` return
on a network error; `data = none` with `status = some _` is the
`(r.status_code, None)` return when the received body fails JSON parsing.
A parsed body is modelled by its list of top-level keys. -/
structure CheckResult where
  status : Option Nat
  data : Option (List String)
deriving DecidableEq

/-- `_is_valid data` from bot.py: `not data` (None or an empty dict) gives
`False`; a body carrying an `errorMessage` key gives `False`; any other
body gives `True`. -/
def is_valid (data : Option (List String)) : Bool :=
  match data with
  | none => false
  | some keys =>
    if keys.isEmpty then false
    else if keys.contains "errorMessage" then false
    else true

/-- The three-way outcome a scanned code is bucketed under. -/
inductive Outcome where
  | alive
  | dead
  | networkError
deriving DecidableEq

/-- The classification applied by `run_scan` to one check result:
`(None, None)` is a network error, otherwise `_is_valid` decides
alive versus dead. -/
def classify (r : CheckResult) : Outcome :=
  if r.status = none ∧ r.data = none then Outcome.networkError
  else if is_valid r.data then Outcome.alive
  else Outcome.dead

/-- The rendered text of one progress event, as built inside
`run_scan.update_progress` (percentage, bar, counts, current code).
The truncated percentage `int(done / total * 100)` is modelled by
natural division `done * 100 / total`. -/
def renderProgress (total done alive dead : Nat) (current : String) : String :=
  toString (done * 100 / total) ++ "%\n" ++
  "[" ++ String.mk (List.replicate (done * 100 / total / 5) '█') ++
  String.mk (List.replicate (20 - done * 100 / total / 5) '░') ++ "]\n" ++
  "Checked: " ++ toString done ++ "/" ++ toString total ++ "\n" ++
  "Alive: " ++ toString alive ++ "  Dead: " ++ toString dead ++ "\n" ++
  "Current: " ++ current

/-- The state threaded through one `run_scan` pass: the three result
buckets, the `last_text` dedup cell, plus two ghost logs — `calls`
records every outbound `edit_message_text` payload actually sent, and
`events` records every rendered progress event (before dedup). -/
structure ScanState where
  alive : List String
  dead : List String
  errors : List String
  lastText : String
  calls : List String
  events : List String
deriving DecidableEq

/-- The buckets and progress state at the start of a scan pass
(`alive, dead, errors = [], [], []` and `last_text = [""]`). -/
def initState : ScanState :=
  { alive := [], dead := [], errors := [], lastText := "", calls := [], events := [] }

/-- `run_scan.update_progress done current`: returns immediately when
`total == 0` or no progress message id was supplied; otherwise renders
the progress text and, only when it differs from `last_text`, stores it
and performs the outbound edit call. -/
def update_progress (total : Nat) (hasMsg : Bool) (st : ScanState) (done : Nat) (current : String) : ScanState :=
  if total = 0 ∨ hasMsg = false then st
  else if renderProgress total done st.alive.length st.dead.length current = st.lastText then
    { st with events := st.events ++ [renderProgress total done st.alive.length st.dead.length current] }
  else
    { st with
      lastText := renderProgress total done st.alive.length st.dead.length current,
      calls := st.calls ++ [renderProgress total done st.alive.length st.dead.length current],
      events := st.events ++ [renderProgress total done st.alive.length st.dead.length current] }

/-- One iteration of the `for idx, code in enumerate(codes, 1)` loop of
`run_scan`: emit the progress event for `idx - 1`, check the code, and
append it to exactly one bucket — `(None, None)` to errors, `_is_valid`
to alive, anything else to dead.  The best-effort `_reset_voucher` call
and the pacing sleep have no effect on the scan state. -/
def scanStep (client : String → CheckResult) (total : Nat) (hasMsg : Bool) (idx : Nat) (code : String) (st : ScanState) : ScanState :=
  let st1 := update_progress total hasMsg st (idx - 1) code
  if (client code).status = none ∧ (client code).data = none then
    { st1 with errors := st1.errors ++ [code] }
  else if is_valid (client code).data then
    { st1 with alive := st1.alive ++ [code] }
  else
    { st1 with dead := st1.dead ++ [code] }

/-- The enumeration loop of `run_scan`, starting at index `idx`. -/
def scanLoop (client : String → CheckResult) (total : Nat) (hasMsg : Bool) : Nat → List String → ScanState → ScanState
  | _, [], st => st
  | idx, code :: rest, st =>
      scanLoop client total hasMsg (idx + 1) rest (scanStep client total hasMsg idx code st)

/-- `run_scan bot chat_id codes progress_msg_id`: runs the enumeration
loop over `codes` from index 1 and then emits the terminal progress
event `update_progress(total, "✅ Done")`.  The remote client is passed
explicitly; `hasMsg` tells whether a progress message id was supplied. -/
def run_scan (client : String → CheckResult) (hasMsg : Bool) (codes : List String) : ScanState :=
  update_progress codes.length hasMsg
    (scanLoop client codes.length hasMsg 1 codes initState)
    codes.length "✅ Done"

/-- The `VOUCHER_VALUES` table from the configuration section of bot.py,
in its source insertion order: known code prefixes mapped to rupee face
values. -/
def VOUCHER_VALUES : List (String × Nat) :=
  [("SVH", 4000), ("SV3", 5000), ("SVC", 1000), ("SVD", 2000), ("SVA", 500), ("SVG", 500)]

/-- `upper.startswith(pfx)` spelled out on the underlying character
lists (first argument is the candidate pattern). -/
def prefixMatches : List Char → List Char → Bool
  | [], _ => true
  | _ :: _, [] => false
  | a :: ps, b :: cs => a == b && prefixMatches ps cs

/-- `upper.startswith(p)` on strings. -/
def startsWithP (p u : String) : Bool :=
  prefixMatches p.data u.data

/-- Python `code.upper()` (the codes handled by the bot are ASCII). -/
def upperStr (s : String) : String :=
  String.mk (s.data.map Char.toUpper)

/-- The `for prefix, value in VOUCHER_VALUES.items()` loop of
`_voucher_value`: the first table entry whose prefix matches wins. -/
def lookupVal : List (String × Nat) → String → Option Nat
  | [], _ => none
  | (p, v) :: rest, u => if startsWithP p u then some v else lookupVal rest u

/-- `_voucher_value code`: uppercase the code, return `str(value)` of the
first matching table prefix, or the `"Unknown"` sentinel when no prefix
matches. -/
def voucher_value (code : String) : String :=
  match lookupVal VOUCHER_VALUES (upperStr code) with
  | some v => toString v
  | none => "Unknown"

/-- The mock remote client of the end-to-end scenario: `SVH1234AB` gets a
successful body with no error indicator, every other code a body carrying
`errorMessage`. -/
def mockClient (code : String) : CheckResult :=
  if code = "SVH1234AB" then { status := some 200, data := some ["voucher"] }
  else { status := some 200, data := some ["errorMessage"] }

/-- The handle of one `asyncio` task: an identity plus its `done()` flag. -/
structure TaskHandle where
  id : Nat
  done : Bool
deriving DecidableEq

/-- One per-user entry of the global `state` dict: the voucher registry
(code paired with its `paused` flag, insertion order preserved), the
protection task handle, and the `checking` / `stop_requested` flags. -/
structure Session where
  vouchers : List (String × Bool)
  protect_task : Option TaskHandle
  checking : Bool
  stop_requested : Bool
deriving DecidableEq

/-- The default-constructed session produced by the `defaultdict`. -/
def emptySession : Session :=
  { vouchers := [], protect_task := none, checking := false, stop_requested := false }

/-- `code in s["vouchers"]`. -/
def containsCode (vs : List (String × Bool)) (code : String) : Bool :=
  vs.any (fun cv => cv.1 == code)

/-- `s["vouchers"][code]["paused"] = p` on the registry list. -/
def setPaused (vs : List (String × Bool)) (code : String) (p : Bool) : List (String × Bool) :=
  vs.map (fun cv => if cv.1 == code then (cv.1, p) else cv)

/-- The replies the command handlers send back to the chat transport. -/
inductive Reply where
  | usage
  | notInList (code : String)
  | pausedOk (code : String)
  | resumedOk (code : String)
  | addedAndProtected (code : String)
  | noCodesToProtect
  | alreadyRunning
  | protectionStarted
  | stopped
  | notRunning
  | busyChecking
  | ignored
  | cleared (count : Nat)
  | results (alive dead errors : List String)
  | raised (e : String)
deriving DecidableEq

/-- `cmd_pause`: usage message without an argument; an error and no
mutation when the uppercased code is not registered; otherwise the code's
`paused` flag is set. -/
def cmd_pause (s : Session) (args : List String) : Session × Reply :=
  match args with
  | [] => (s, Reply.usage)
  | a :: _ =>
    if containsCode s.vouchers (upperStr a) then
      ({ s with vouchers := setPaused s.vouchers (upperStr a) true }, Reply.pausedOk (upperStr a))
    else
      (s, Reply.notInList (upperStr a))

/-- `cmd_resume`: usage message without an argument; when the uppercased
code is not registered it is ADDED with `paused = False` ("added and now
protected"); otherwise its `paused` flag is cleared. -/
def cmd_resume (s : Session) (args : List String) : Session × Reply :=
  match args with
  | [] => (s, Reply.usage)
  | a :: _ =>
    if containsCode s.vouchers (upperStr a) then
      ({ s with vouchers := setPaused s.vouchers (upperStr a) false }, Reply.resumedOk (upperStr a))
    else
      ({ s with vouchers := s.vouchers ++ [(upperStr a, false)] }, Reply.addedAndProtected (upperStr a))

/-- `cmd_clear`: empties the registry and reports how many codes were
removed. -/
def cmd_clear (s : Session) : Session × Reply :=
  ({ s with vouchers := [] }, Reply.cleared s.vouchers.length)

/-- `cmd_run` with `fresh` standing for the task `asyncio.create_task`
would return: refuses on an empty registry, refuses while the bound task
is unfinished, otherwise binds a new protection task. -/
def cmd_run (fresh : TaskHandle) (s : Session) : Session × Reply :=
  if s.vouchers = [] then (s, Reply.noCodesToProtect)
  else
    match s.protect_task with
    | some t =>
      if t.done = false then (s, Reply.alreadyRunning)
      else ({ s with protect_task := some fresh }, Reply.protectionStarted)
    | none => ({ s with protect_task := some fresh }, Reply.protectionStarted)

/-- `cmd_stop`: with an unfinished bound task it sets `stop_requested`,
cancels the task and clears the handle; otherwise it reports "not
running" and leaves the session untouched. -/
def cmd_stop (s : Session) : Session × Reply :=
  match s.protect_task with
  | some t =>
    if t.done = false then
      ({ s with stop_requested := true, protect_task := none }, Reply.stopped)
    else (s, Reply.notRunning)
  | none => (s, Reply.notRunning)

/-- The active codes of a session, as computed at the top of each
protection cycle: registry entries whose `paused` flag is false, in
registry order. -/
def active_codes (s : Session) : List String :=
  (s.vouchers.filter (fun cv => !cv.2)).map (fun cv => cv.1)

/-- One cycle of the protection loop body: with no active codes only a
notice is sent (`none` report); otherwise the active codes are scanned
and the cycle summary built from the three buckets.  The session itself
is only read — the loop never writes the registry. -/
def protection_cycle (client : String → CheckResult) (s : Session) :
    Session × Option (List String × List String × List String) :=
  if active_codes s = [] then (s, none)
  else
    ((s : Session),
      some ((run_scan client true (active_codes s)).alive,
            (run_scan client true (active_codes s)).dead,
            (run_scan client true (active_codes s)).errors))

/-- `n` consecutive protection cycles, collecting the cycle reports. -/
def protection_cycles (client : String → CheckResult) :
    Nat → Session → Session × List (Option (List String × List String × List String))
  | 0, s => (s, [])
  | n + 1, s =>
    ((protection_cycles client n (protection_cycle client s).1).1,
      (protection_cycle client s).2 :: (protection_cycles client n (protection_cycle client s).1).2)

/-- `protection_loop` observed for `n` cycles: on entry it clears
`stop_requested`, runs the cycles, and in its `finally` clause clears the
task handle. -/
def protection_loop (client : String → CheckResult) (n : Nat) (s : Session) :
    Session × List (Option (List String × List String × List String)) :=
  ({ (protection_cycles client n { s with stop_requested := false }).1 with protect_task := none },
    (protection_cycles client n { s with stop_requested := false }).2)

/-- `INTERVAL_SECONDS` from the configuration section. -/
def INTERVAL_SECONDS : Nat := 180

/-- The chunked inter-cycle wait `for _ in range(INTERVAL_SECONDS // 5)`:
before each 5-second sleep increment the stop flag is read, and the loop
breaks as soon as it is true.  `stopFlag i` is the value of
`s["stop_requested"]` as read after `i` increments have been slept; the
result is the number of increments actually slept. -/
def sleep_chunks (stopFlag : Nat → Bool) : Nat → Nat → Nat
  | 0, slept => slept
  | n + 1, slept => if stopFlag slept then slept else sleep_chunks stopFlag n (slept + 1)

/-- The full inter-cycle wait of the protection loop. -/
def inter_cycle_wait (stopFlag : Nat → Bool) : Nat :=
  sleep_chunks stopFlag (INTERVAL_SECONDS / 5) 0

/-- `cmd_check`: refuses while a check is already running, shows usage
without codes, and otherwise sets `checking`, runs the scan, and restores
`checking := false` in a `finally` clause — also when the scan raises,
which is modelled by the `scanOutcome` parameter. -/
def cmd_check (s : Session) (codes : List String) (scanOutcome : Except String ScanState) :
    Session × Reply :=
  if s.checking then (s, Reply.busyChecking)
  else if codes = [] then (s, Reply.usage)
  else
    match scanOutcome with
    | Except.ok st =>
      ({ { s with checking := true } with checking := false },
        Reply.results st.alive st.dead st.errors)
    | Except.error e =>
      ({ { s with checking := true } with checking := false }, Reply.raised e)

/-- `handle_plain_message`: extracts potential codes (words longer than 4
characters, uppercased) from a plain text message and then performs the
same guarded check as `cmd_check`. -/
def handle_plain_message (s : Session) (text : String) (scanOutcome : Except String ScanState) :
    Session × Reply :=
  if text.trim = "" then (s, Reply.ignored)
  else if (((text.trim.replace "," " ").split (fun c => c.isWhitespace)).filter
      (fun w => 4 < w.length)).map upperStr = [] then (s, Reply.ignored)
  else if s.checking then (s, Reply.busyChecking)
  else
    match scanOutcome with
    | Except.ok st =>
      ({ { s with checking := true } with checking := false },
        Reply.results st.alive st.dead st.errors)
    | Except.error e =>
      ({ { s with checking := true } with checking := false }, Reply.raised e)

/- ──────────────────────────  helper lemmas  ────────────────────────── -/

theorem update_progress_alive (total : Nat) (hasMsg : Bool) (st : ScanState) (done : Nat) (current : String) :
    (update_progress total hasMsg st done current).alive = st.alive := by
  unfold update_progress
  split
  · rfl
  · split <;> rfl

theorem update_progress_dead (total : Nat) (hasMsg : Bool) (st : ScanState) (done : Nat) (current : String) :
    (update_progress total hasMsg st done current).dead = st.dead := by
  unfold update_progress
  split
  · rfl
  · split <;> rfl

theorem update_progress_errors (total : Nat) (hasMsg : Bool) (st : ScanState) (done : Nat) (current : String) :
    (update_progress total hasMsg st done current).errors = st.errors := by
  unfold update_progress
  split
  · rfl
  · split <;> rfl

theorem scanStep_alive (client : String → CheckResult) (total : Nat) (hasMsg : Bool) (idx : Nat) (code : String) (st : ScanState) :
    (scanStep client total hasMsg idx code st).alive =
      st.alive ++ (if classify (client code) = Outcome.alive then [code] else []) := by
  unfold scanStep classify
  by_cases h1 : (client code).status = none ∧ (client code).data = none
  · simp [h1, update_progress_alive]
  · by_cases h2 : is_valid (client code).data = true
    · simp [h1, h2, update_progress_alive]
    · simp [h1, h2, update_progress_alive]

theorem scanStep_dead (client : String → CheckResult) (total : Nat) (hasMsg : Bool) (idx : Nat) (code : String) (st : ScanState) :
    (scanStep client total hasMsg idx code st).dead =
      st.dead ++ (if classify (client code) = Outcome.dead then [code] else []) := by
  unfold scanStep classify
  by_cases h1 : (client code).status = none ∧ (client code).data = none
  · simp [h1, update_progress_dead]
  · by_cases h2 : is_valid (client code).data = true
    · simp [h1, h2, update_progress_dead]
    · simp [h1, h2, update_progress_dead]

theorem scanStep_errors (client : String → CheckResult) (total : Nat) (hasMsg : Bool) (idx : Nat) (code : String) (st : ScanState) :
    (scanStep client total hasMsg idx code st).errors =
      st.errors ++ (if classify (client code) = Outcome.networkError then [code] else []) := by
  unfold scanStep classify
  by_cases h1 : (client code).status = none ∧ (client code).data = none
  · simp [h1, update_progress_errors]
  · by_cases h2 : is_valid (client code).data = true
    · simp [h1, h2, update_progress_errors]
    · simp [h1, h2, update_progress_errors]

theorem scanLoop_alive (client : String → CheckResult) (total : Nat) (hasMsg : Bool) :
    ∀ (codes : List String) (idx : Nat) (st : ScanState),
    (scanLoop client total hasMsg idx codes st).alive =
      st.alive ++ codes.filter (fun c => decide (classify (client c) = Outcome.alive)) := by
  intro codes
  induction codes with
  | nil => intro idx st; simp [scanLoop]
  | cons code rest ih =>
    intro idx st
    rw [scanLoop, ih, scanStep_alive, List.filter_cons]
    by_cases h : classify (client code) = Outcome.alive
    · simp [h]
    · simp [h]

theorem scanLoop_dead (client : String → CheckResult) (total : Nat) (hasMsg : Bool) :
    ∀ (codes : List String) (idx : Nat) (st : ScanState),
    (scanLoop client total hasMsg idx codes st).dead =
      st.dead ++ codes.filter (fun c => decide (classify (client c) = Outcome.dead)) := by
  intro codes
  induction codes with
  | nil => intro idx st; simp [scanLoop]
  | cons code rest ih =>
    intro idx st
    rw [scanLoop, ih, scanStep_dead, List.filter_cons]
    by_cases h : classify (client code) = Outcome.dead
    · simp [h]
    · simp [h]

theorem scanLoop_errors (client : String → CheckResult) (total : Nat) (hasMsg : Bool) :
    ∀ (codes : List String) (idx : Nat) (st : ScanState),
    (scanLoop client total hasMsg idx codes st).errors =
      st.errors ++ codes.filter (fun c => decide (classify (client c) = Outcome.networkError)) := by
  intro codes
  induction codes with
  | nil => intro idx st; simp [scanLoop]
  | cons code rest ih =>
    intro idx st
    rw [scanLoop, ih, scanStep_errors, List.filter_cons]
    by_cases h : classify (client code) = Outcome.networkError
    · simp [h]
    · simp [h]

theorem run_scan_alive (client : String → CheckResult) (hasMsg : Bool) (codes : List String) :
    (run_scan client hasMsg codes).alive =
      codes.filter (fun c => decide (classify (client c) = Outcome.alive)) := by
  unfold run_scan
  rw [update_progress_alive, scanLoop_alive]
  simp [initState]

theorem run_scan_dead (client : String → CheckResult) (hasMsg : Bool) (codes : List String) :
    (run_scan client hasMsg codes).dead =
      codes.filter (fun c => decide (classify (client c) = Outcome.dead)) := by
  unfold run_scan
  rw [update_progress_dead, scanLoop_dead]
  simp [initState]

theorem run_scan_errors (client : String → CheckResult) (hasMsg : Bool) (codes : List String) :
    (run_scan client hasMsg codes).errors =
      codes.filter (fun c => decide (classify (client c) = Outcome.networkError)) := by
  unfold run_scan
  rw [update_progress_errors, scanLoop_errors]
  simp [initState]

theorem filter_outcome_length (client : String → CheckResult) (codes : List String) :
    (codes.filter (fun c => decide (classify (client c) = Outcome.alive))).length +
    (codes.filter (fun c => decide (classify (client c) = Outcome.dead))).length +
    (codes.filter (fun c => decide (classify (client c) = Outcome.networkError))).length =
      codes.length := by
  induction codes with
  | nil => simp
  | cons code rest ih =>
    rcases h : classify (client code) <;>
      simp [List.filter_cons, h] <;> omega

theorem count_filter_tri (pa pd pe : String → Bool)
    (hx : ∀ x, (pa x = true ∧ pd x = false ∧ pe x = false) ∨
      (pa x = false ∧ pd x = true ∧ pe x = false) ∨
      (pa x = false ∧ pd x = false ∧ pe x = true)) :
    ∀ (l : List String) (c : String),
      l.count c = (l.filter pa).count c + (l.filter pd).count c + (l.filter pe).count c := by
  intro l c
  induction l with
  | nil => simp
  | cons code rest ih =>
    rw [List.filter_cons, List.filter_cons, List.filter_cons]
    by_cases hc : code = c
    · subst hc
      rcases hx code with ⟨h1, h2, h3⟩ | ⟨h1, h2, h3⟩ | ⟨h1, h2, h3⟩ <;>
        rw [h1, h2, h3] <;>
        simp only [eq_self_iff_true, Bool.false_eq_true, if_true, if_false,
          List.count_cons_self] <;>
        omega
    · rcases hx code with ⟨h1, h2, h3⟩ | ⟨h1, h2, h3⟩ | ⟨h1, h2, h3⟩ <;>
        rw [h1, h2, h3] <;>
        simp only [eq_self_iff_true, Bool.false_eq_true, if_true, if_false,
          List.count_cons_of_ne (Ne.symm hc)] <;>
        omega

theorem filter_outcome_count (client : String → CheckResult) (codes : List String) (c : String) :
    codes.count c =
    (codes.filter (fun x => decide (classify (client x) = Outcome.alive))).count c +
    (codes.filter (fun x => decide (classify (client x) = Outcome.dead))).count c +
    (codes.filter (fun x => decide (classify (client x) = Outcome.networkError))).count c := by
  refine count_filter_tri _ _ _ (fun x => ?_) codes c
  rcases h : classify (client x) <;> simp [h]

/- ──────────────────────────  claim theorems  ────────────────────────── -/

/-- Claim C1 (amended): the classification of one remote check is
deterministic and three-way — a transport failure is NetworkError, a
successful response whose body carries the error indicator is Dead, a
successful response with a non-empty body free of the error indicator is
Alive — but a successful response with an EMPTY body (e.g. `{}`) is
classified Dead, not Alive, because `_is_valid` rejects falsy bodies. -/
theorem C1_classification (r : CheckResult) (st : Option Nat) (keys : List String) :
    (r.status = none → r.data = none → classify r = Outcome.networkError)
    ∧ (keys ≠ [] → "errorMessage" ∈ keys →
        classify { status := st, data := some keys } = Outcome.dead)
    ∧ (keys ≠ [] → "errorMessage" ∉ keys →
        classify { status := st, data := some keys } = Outcome.alive)
    ∧ classify { status := st, data := some [] } = Outcome.dead := by
  refine ⟨fun h1 h2 => ?_, fun hne hmem => ?_, fun hne hmem => ?_, ?_⟩
  · simp [classify, h1, h2]
  · simp [classify, is_valid, hne, hmem]
  · simp [classify, is_valid, hne, hmem]
  · simp [classify, is_valid]

/-- Witness for C1 at concrete inputs: a transport failure, a body with
the error indicator, and a non-empty clean body. -/
theorem C1_classification_witness :
    classify { status := none, data := none } = Outcome.networkError
    ∧ classify { status := some 200, data := some ["errorMessage"] } = Outcome.dead
    ∧ classify { status := some 200, data := some ["voucher"] } = Outcome.alive :=
  ⟨(C1_classification { status := none, data := none } (some 200) ["errorMessage"]).1 rfl rfl,
    (C1_classification { status := none, data := none } (some 200) ["errorMessage"]).2.1
      (by decide) (by decide),
    (C1_classification { status := none, data := none } (some 200) ["voucher"]).2.2.1
      (by decide) (by decide)⟩

/-- Counterexample to C1 as stated: a successful response with an empty
body (`{}`, no error indicator present) is classified Dead, not Alive. -/
theorem C1_empty_body_counterexample :
    classify { status := some 200, data := some [] } = Outcome.dead
    ∧ classify { status := some 200, data := some [] } ≠ Outcome.alive := by
  constructor
  · rfl
  · decide

/-- Claim C3: `run_scan` partitions any input sequence — each bucket is
exactly the in-order sublist of codes with that outcome (so relative
input order is preserved and the scan completes for every input, the
empty one included), the bucket lengths sum to the input length, and
every code's multiplicity in the input equals the sum of its
multiplicities across the three buckets. -/
theorem C3_bucket_partition (client : String → CheckResult) (hasMsg : Bool) (codes : List String) :
    (run_scan client hasMsg codes).alive =
      codes.filter (fun c => decide (classify (client c) = Outcome.alive))
    ∧ (run_scan client hasMsg codes).dead =
      codes.filter (fun c => decide (classify (client c) = Outcome.dead))
    ∧ (run_scan client hasMsg codes).errors =
      codes.filter (fun c => decide (classify (client c) = Outcome.networkError))
    ∧ (run_scan client hasMsg codes).alive.length + (run_scan client hasMsg codes).dead.length +
        (run_scan client hasMsg codes).errors.length = codes.length
    ∧ ∀ c : String, codes.count c =
        (run_scan client hasMsg codes).alive.count c + (run_scan client hasMsg codes).dead.count c +
        (run_scan client hasMsg codes).errors.count c := by
  refine ⟨run_scan_alive client hasMsg codes, run_scan_dead client hasMsg codes,
    run_scan_errors client hasMsg codes, ?_, ?_⟩
  · rw [run_scan_alive, run_scan_dead, run_scan_errors]
    exact filter_outcome_length client codes
  · intro c
    rw [run_scan_alive, run_scan_dead, run_scan_errors]
    exact filter_outcome_count client codes c

/-- Claim C2 (amended): a transport failure — `_check_voucher` returning
`(None, None)` — always lands in the errors (NetworkError) bucket and
never in the dead bucket; but a response that is RECEIVED and merely
fails to parse (`(status, None)`) is bucketed Dead, not NetworkError,
because only the `(None, None)` shape selects the errors branch. -/
theorem C2_transport_failure_bucket (client : String → CheckResult) (hasMsg : Bool)
    (codes : List String) (c : String)
    (h1 : (client c).status = none) (h2 : (client c).data = none) :
    c ∉ (run_scan client hasMsg codes).dead
    ∧ (c ∈ codes → c ∈ (run_scan client hasMsg codes).errors) := by
  have hcl : classify (client c) = Outcome.networkError := by
    simp [classify, h1, h2]
  constructor
  · rw [run_scan_dead]
    intro hmem
    have := (List.mem_filter.mp hmem).2
    simp [hcl] at this
  · intro hc
    rw [run_scan_errors]
    exact List.mem_filter.mpr ⟨hc, by simp [hcl]⟩

/-- Witness for C2: a one-element scan through a client that fails at the
transport level puts the code in errors and not in dead. -/
theorem C2_transport_failure_bucket_witness :
    "SVH1234AB" ∉ (run_scan (fun _ => { status := none, data := none }) false ["SVH1234AB"]).dead
    ∧ "SVH1234AB" ∈ (run_scan (fun _ => { status := none, data := none }) false ["SVH1234AB"]).errors :=
  ⟨(C2_transport_failure_bucket (fun _ => { status := none, data := none }) false
      ["SVH1234AB"] "SVH1234AB" rfl rfl).1,
    (C2_transport_failure_bucket (fun _ => { status := none, data := none }) false
      ["SVH1234AB"] "SVH1234AB" rfl rfl).2 (by decide)⟩

/-- Counterexample to C2 as stated: an HTTP response received
successfully (`status = 200`) whose body fails to parse is bucketed
Dead, not NetworkError. -/
theorem C2_unparseable_body_counterexample :
    (run_scan (fun _ => { status := some 200, data := none }) false ["SVH1234AB"]).dead = ["SVH1234AB"]
    ∧ (run_scan (fun _ => { status := some 200, data := none }) false ["SVH1234AB"]).errors = [] := by
  constructor
  · rfl
  · rfl

/-- Claim C4: however many protection cycles run — whatever the remote
outcomes, dead and network errors included — the loop never removes a
registry entry and never changes a `paused` flag; the registry is emptied
only by the explicit clear command. -/
theorem C4_never_auto_remove (client : String → CheckResult) (n : Nat) (s : Session) :
    (protection_loop client n s).1.vouchers = s.vouchers
    ∧ (cmd_clear s).1.vouchers = [] := by
  have hcycle : ∀ s' : Session, (protection_cycle client s').1 = s' := by
    intro s'
    unfold protection_cycle
    split <;> rfl
  have hcycles : ∀ (m : Nat) (s' : Session), (protection_cycles client m s').1 = s' := by
    intro m
    induction m with
    | zero => intro s'; rfl
    | succ k ih =>
      intro s'
      show (protection_cycles client k (protection_cycle client s').1).1 = s'
      rw [ih, hcycle]
  constructor
  · show ({ (protection_cycles client n { s with stop_requested := false }).1 with
      protect_task := none } : Session).vouchers = s.vouchers
    rw [hcycles]
  · rfl

/-- Claim C5 (amended): a pause command naming an unregistered code
reports a validation error and leaves the session untouched; but a
resume command naming an unregistered code does NOT report an error —
it appends the code to the registry with `paused = false` and reports
it as "added and now protected". -/
theorem C5_unknown_code_commands (s : Session) (a : String) (rest : List String)
    (h : containsCode s.vouchers (upperStr a) = false) :
    cmd_pause s (a :: rest) = (s, Reply.notInList (upperStr a))
    ∧ (cmd_resume s (a :: rest)).1.vouchers = s.vouchers ++ [(upperStr a, false)]
    ∧ (cmd_resume s (a :: rest)).2 = Reply.addedAndProtected (upperStr a) := by
  refine ⟨?_, ?_, ?_⟩ <;> simp [cmd_pause, cmd_resume, h]

/-- Witness for C5 on a concrete session: pausing an unknown code
mutates nothing, resuming an unknown code appends it unpaused. -/
theorem C5_unknown_code_commands_witness :
    cmd_pause emptySession ["SVH1234AB"] = (emptySession, Reply.notInList (upperStr "SVH1234AB"))
    ∧ (cmd_resume emptySession ["SVH1234AB"]).1.vouchers =
        emptySession.vouchers ++ [(upperStr "SVH1234AB", false)] :=
  ⟨(C5_unknown_code_commands emptySession "SVH1234AB" [] (by decide)).1,
    (C5_unknown_code_commands emptySession "SVH1234AB" [] (by decide)).2.1⟩

/-- Counterexample to C5 as stated: a resume command naming a code absent
from the registry mutates the session — the registry differs before and
after, and the reply is not a validation error. -/
theorem C5_resume_mutation_counterexample :
    (cmd_resume emptySession ["SVH1234AB"]).1.vouchers ≠ emptySession.vouchers
    ∧ (cmd_resume emptySession ["SVH1234AB"]).2 = Reply.addedAndProtected "SVH1234AB" := by
  constructor
  · decide
  · decide

/-- Claim C6: while the session's handle holds an unfinished task, a
start command changes nothing (no second loop task, handle intact), and
a stop command with no running loop answers "not running" leaving the
session — its registry included — untouched. -/
theorem C6_single_loop_per_session (s : Session) (fresh t : TaskHandle) :
    (s.protect_task = some t → t.done = false →
      (cmd_run fresh s).1 = s ∧ (cmd_run fresh s).1.protect_task = some t)
    ∧ (s.protect_task = none → cmd_stop s = (s, Reply.notRunning))
    ∧ (s.protect_task = some t → t.done = true → cmd_stop s = (s, Reply.notRunning)) := by
  refine ⟨fun hp hd => ?_, fun hp => ?_, fun hp hd => ?_⟩
  · have hrun : (cmd_run fresh s).1 = s := by
      unfold cmd_run
      split
      · rfl
      · rw [hp]
        simp [hd]
    exact ⟨hrun, by rw [hrun, hp]⟩
  · unfold cmd_stop
    rw [hp]
  · unfold cmd_stop
    rw [hp]
    simp [hd]

/-- Witness for C6: a session with an unfinished bound task rejects a
second start, and a fresh session's stop answers "not running". -/
theorem C6_single_loop_per_session_witness :
    (cmd_run { id := 2, done := false }
        { vouchers := [("SVH1234AB", false)], protect_task := some { id := 1, done := false },
          checking := false, stop_requested := false }).1 =
      { vouchers := [("SVH1234AB", false)], protect_task := some { id := 1, done := false },
        checking := false, stop_requested := false }
    ∧ cmd_stop emptySession = (emptySession, Reply.notRunning) :=
  ⟨((C6_single_loop_per_session
      { vouchers := [("SVH1234AB", false)], protect_task := some { id := 1, done := false },
        checking := false, stop_requested := false }
      { id := 2, done := false } { id := 1, done := false }).1 rfl rfl).1,
    (C6_single_loop_per_session emptySession { id := 2, done := false }
      { id := 1, done := false }).2.1 rfl⟩

theorem update_progress_lastText (total : Nat) (st : ScanState) (done : Nat) (current : String)
    (ht : total ≠ 0) :
    (update_progress total true st done current).lastText =
      renderProgress total done st.alive.length st.dead.length current := by
  unfold update_progress
  rw [if_neg (by simp [ht])]
  split
  · next h => exact h.symm
  · rfl

/-- Claim C7: the scan's progress reporting dedups on content — after
any progress event, `last_text` holds exactly its rendered text, so a
following event rendering byte-identically performs no outbound edit
call (the pair results in at most the first event's single call), while
any single event performs at most one call; and after the final item the
terminal "Done" event is always emitted as the last progress event. -/
theorem C7_progress_dedup (total done₁ done₂ : Nat) (cur₁ cur₂ : String) (st : ScanState)
    (ht : total ≠ 0)
    (heq : renderProgress total done₂ (update_progress total true st done₁ cur₁).alive.length
        (update_progress total true st done₁ cur₁).dead.length cur₂ =
      renderProgress total done₁ st.alive.length st.dead.length cur₁) :
    (update_progress total true (update_progress total true st done₁ cur₁) done₂ cur₂).calls =
      (update_progress total true st done₁ cur₁).calls
    ∧ (update_progress total true st done₁ cur₁).calls.length ≤ st.calls.length + 1
    ∧ ∀ (client : String → CheckResult) (codes : List String), codes ≠ [] →
        (run_scan client true codes).events.getLast? =
          some (renderProgress codes.length codes.length
            (run_scan client true codes).alive.length
            (run_scan client true codes).dead.length "✅ Done") := by
  have hlast := update_progress_lastText total st done₁ cur₁ ht
  refine ⟨?_, ?_, ?_⟩
  · have key : ∀ s1 : ScanState,
        renderProgress total done₂ s1.alive.length s1.dead.length cur₂ = s1.lastText →
        (update_progress total true s1 done₂ cur₂).calls = s1.calls := by
      intro s1 hl
      unfold update_progress
      rw [if_neg (by simp [ht]), if_pos hl]
    exact key _ (by rw [hlast, heq])
  · unfold update_progress
    rw [if_neg (by simp [ht])]
    split
    · exact Nat.le_succ _
    · simp
  · intro client codes hne
    have htot : codes.length ≠ 0 := fun h => hne (List.length_eq_zero.mp h)
    unfold run_scan
    rw [update_progress_alive, update_progress_dead]
    unfold update_progress
    rw [if_neg (by simp [htot])]
    split
    · exact List.getLast?_concat _
    · exact List.getLast?_concat _

/-- Witness for C7 at a concrete state: a repeated identical progress
event on a one-element scan adds no second outbound call, and the
mock-scenario scan ends with the terminal "Done" event. -/
theorem C7_progress_dedup_witness :
    (update_progress 1 true (update_progress 1 true initState 0 "SVH1234AB") 0 "SVH1234AB").calls =
      (update_progress 1 true initState 0 "SVH1234AB").calls
    ∧ (run_scan mockClient true ["SVH1234AB"]).events.getLast? =
        some (renderProgress 1 1 (run_scan mockClient true ["SVH1234AB"]).alive.length
          (run_scan mockClient true ["SVH1234AB"]).dead.length "✅ Done") :=
  ⟨(C7_progress_dedup 1 0 0 "SVH1234AB" "SVH1234AB" initState (by decide)
      (by rw [update_progress_alive, update_progress_dead])).1,
    (C7_progress_dedup 1 0 0 "SVH1234AB" "SVH1234AB" initState (by decide)
      (by rw [update_progress_alive, update_progress_dead])).2.2 mockClient
      ["SVH1234AB"] (by decide)⟩

theorem sleep_chunks_le (f : Nat → Bool) (j : Nat)
    (mono : ∀ a b, a ≤ b → f a = true → f b = true) (hj : f j = true) :
    ∀ (n slept : Nat), slept ≤ j → sleep_chunks f n slept ≤ j := by
  intro n
  induction n with
  | zero => intro slept h; simpa [sleep_chunks] using h
  | succ m ih =>
    intro slept h
    by_cases hf : f slept = true
    · simpa [sleep_chunks, hf] using h
    · have hlt : slept < j := by
        rcases Nat.lt_or_ge slept j with hl | hl
        · exact hl
        · exact absurd (mono j slept hl hj) (by simp [hf])
      simpa [sleep_chunks, hf] using ih (slept + 1) hlt

theorem sleep_chunks_le_fuel (f : Nat → Bool) :
    ∀ (n slept : Nat), sleep_chunks f n slept ≤ slept + n := by
  intro n
  induction n with
  | zero => intro slept; simp [sleep_chunks]
  | succ m ih =>
    intro slept
    by_cases hf : f slept = true
    · simp [sleep_chunks, hf]
    · have := ih (slept + 1)
      simp [sleep_chunks, hf]
      omega

/-- Claim C9: the inter-cycle wait sleeps in fixed 5-second increments
and reads `stop_requested` before every increment, so once the flag is
observable at increment boundary `j` the loop sleeps at most `j`
increments in total — it never sleeps a full increment beyond a pending
stop request — and never more than the configured
`INTERVAL_SECONDS / 5` increments. -/
theorem C9_cancellation_latency (f : Nat → Bool) (j : Nat)
    (mono : ∀ a b, a ≤ b → f a = true → f b = true) (hj : f j = true) :
    inter_cycle_wait f ≤ j ∧ inter_cycle_wait f ≤ INTERVAL_SECONDS / 5 := by
  constructor
  · exact sleep_chunks_le f j mono hj (INTERVAL_SECONDS / 5) 0 (Nat.zero_le j)
  · have := sleep_chunks_le_fuel f (INTERVAL_SECONDS / 5) 0
    simpa [inter_cycle_wait] using this

/-- Witness for C9: with a stop request observable from the second
increment boundary on, the wait sleeps at most two increments of the 36
configured. -/
theorem C9_cancellation_latency_witness :
    inter_cycle_wait (fun i => decide (2 ≤ i)) ≤ 2 :=
  (C9_cancellation_latency (fun i => decide (2 ≤ i)) 2
    (by intro a b hab ha; simp at ha ⊢; omega) (by decide)).1

/-- Claim C10: a one-shot check — the /check command or a plain-text
message treated as codes — leaves the registry and the loop handle of
the session exactly as they were, for every scan outcome including a
raised one, and when a check actually runs the `checking` flag is back
to false afterwards (the `finally` clause). -/
theorem C10_check_frame (s : Session) (codes : List String) (text : String)
    (o o' : Except String ScanState) :
    (cmd_check s codes o).1.vouchers = s.vouchers
    ∧ (cmd_check s codes o).1.protect_task = s.protect_task
    ∧ (handle_plain_message s text o').1.vouchers = s.vouchers
    ∧ (handle_plain_message s text o').1.protect_task = s.protect_task
    ∧ (s.checking = false → (cmd_check s codes o).1.checking = false)
    ∧ (s.checking = false → (handle_plain_message s text o').1.checking = false) := by
  refine ⟨?_, ?_, ?_, ?_, fun hch => ?_, fun hch => ?_⟩
  · unfold cmd_check
    split_ifs <;> rcases o with e | st <;> rfl
  · unfold cmd_check
    split_ifs <;> rcases o with e | st <;> rfl
  · unfold handle_plain_message
    split_ifs <;> rcases o' with e' | st' <;> rfl
  · unfold handle_plain_message
    split_ifs <;> rcases o' with e' | st' <;> rfl
  · unfold cmd_check
    split_ifs <;> rcases o with e | st <;> first | rfl | exact hch
  · unfold handle_plain_message
    split_ifs <;> rcases o' with e' | st' <;> first | rfl | exact hch

/-- Witness for C10: a fresh session running a check over one code whose
scan raises still ends with `checking = false` and an unchanged (empty)
registry. -/
theorem C10_check_frame_witness :
    (cmd_check emptySession ["SVH1234AB"] (Except.error "boom")).1.vouchers = emptySession.vouchers
    ∧ (cmd_check emptySession ["SVH1234AB"] (Except.error "boom")).1.checking = false :=
  ⟨(C10_check_frame emptySession ["SVH1234AB"] "" (Except.error "boom") (Except.error "boom")).1,
    (C10_check_frame emptySession ["SVH1234AB"] "" (Except.error "boom")
      (Except.error "boom")).2.2.2.2.1 rfl⟩

theorem prefixMatches_inj :
    ∀ (p q u : List Char), prefixMatches p u = true → prefixMatches q u = true →
      p.length = q.length → p = q := by
  intro p
  induction p with
  | nil =>
    intro q u _ _ hlen
    cases q with
    | nil => rfl
    | cons b qs => simp at hlen
  | cons a ps ih =>
    intro q u hp hq hlen
    cases q with
    | nil => simp at hlen
    | cons b qs =>
      cases u with
      | nil => simp [prefixMatches] at hp
      | cons c cs =>
        simp only [prefixMatches, Bool.and_eq_true, beq_iff_eq] at hp hq
        simp only [List.length_cons, Nat.succ.injEq] at hlen
        rw [hp.1, hq.1, ih qs cs hp.2 hq.2 hlen]

theorem table_match_unique (u : String) (e1 e2 : String × Nat)
    (h1 : e1 ∈ VOUCHER_VALUES) (h2 : e2 ∈ VOUCHER_VALUES)
    (m1 : startsWithP e1.1 u = true) (m2 : startsWithP e2.1 u = true) : e1 = e2 := by
  unfold startsWithP at m1 m2
  simp only [VOUCHER_VALUES, List.mem_cons, List.not_mem_nil, or_false] at h1 h2
  rcases h1 with rfl | rfl | rfl | rfl | rfl | rfl <;>
    rcases h2 with rfl | rfl | rfl | rfl | rfl | rfl <;>
      first
      | rfl
      | exact absurd (prefixMatches_inj _ _ u.data m1 m2 (by decide)) (by decide)

theorem lookupVal_of_unique_match :
    ∀ (table : List (String × Nat)) (u p : String) (v : Nat),
      (p, v) ∈ table → startsWithP p u = true →
      (∀ q w, (q, w) ∈ table → startsWithP q u = true → (q, w) = (p, v)) →
      lookupVal table u = some v := by
  intro table
  induction table with
  | nil => intro u p v hp; simp at hp
  | cons e rest ih =>
    intro u p v hp hm huniq
    rcases e with ⟨q0, w0⟩
    by_cases he : startsWithP q0 u = true
    · have heq : (q0, w0) = (p, v) := huniq q0 w0 (List.mem_cons_self _ _) he
      injection heq with hq hv
      simp [lookupVal, he, hv]
    · have hp' : (p, v) ∈ rest := by
        rcases List.mem_cons.mp hp with h | h
        · obtain ⟨hq, hv⟩ := Prod.mk.inj h
          exact absurd (hq ▸ hm) he
        · exact h
      simp only [lookupVal, he, if_false]
      exact ih u p v hp' hm
        (fun q w hq hqu => huniq q w (List.mem_cons_of_mem _ hq) hqu)

theorem lookupVal_of_no_match :
    ∀ (table : List (String × Nat)) (u : String),
      (∀ p v, (p, v) ∈ table → startsWithP p u = false) →
      lookupVal table u = none := by
  intro table
  induction table with
  | nil => intro u _; rfl
  | cons e rest ih =>
    intro u hnone
    rcases e with ⟨q0, w0⟩
    have h0 : startsWithP q0 u = false := hnone q0 w0 (List.mem_cons_self _ _)
    simp only [lookupVal, h0, if_false]
    exact ih u (fun p v hp => hnone p v (List.mem_cons_of_mem _ hp))

/-- Claim C8: the code-value lookup returns the face value of a matching
table prefix — and any matching prefix is of maximal length among the
matches (with this table at most one prefix can match, so first-match
and longest-match coincide) — returns the "Unknown" sentinel when no
prefix matches, and yields "4000" for SVH1234AB via its SVH prefix; and
in the end-to-end scenario the scan of the two codes against the mock
client buckets them alive = [SVH1234AB], dead = [SVC5678CD],
errors = []. -/
theorem C8_value_lookup_and_scenario (code p : String) (v : Nat) :
    ((p, v) ∈ VOUCHER_VALUES → startsWithP p (upperStr code) = true →
      voucher_value code = toString v
      ∧ ∀ (q : String) (w : Nat), (q, w) ∈ VOUCHER_VALUES →
          startsWithP q (upperStr code) = true → q.data.length ≤ p.data.length)
    ∧ ((∀ (q : String) (w : Nat), (q, w) ∈ VOUCHER_VALUES →
          startsWithP q (upperStr code) = false) → voucher_value code = "Unknown")
    ∧ voucher_value "SVH1234AB" = "4000"
    ∧ (run_scan mockClient false ["SVH1234AB", "SVC5678CD"]).alive = ["SVH1234AB"]
    ∧ (run_scan mockClient false ["SVH1234AB", "SVC5678CD"]).dead = ["SVC5678CD"]
    ∧ (run_scan mockClient false ["SVH1234AB", "SVC5678CD"]).errors = [] := by
  refine ⟨fun hp hm => ⟨?_, ?_⟩, fun hnone => ?_, ?_, ?_, ?_, ?_⟩
  · have huniq : ∀ (q : String) (w : Nat), (q, w) ∈ VOUCHER_VALUES →
        startsWithP q (upperStr code) = true → (q, w) = (p, v) :=
      fun q w hq hqm => table_match_unique (upperStr code) (q, w) (p, v) hq hp hqm hm
    have hlv := lookupVal_of_unique_match VOUCHER_VALUES (upperStr code) p v hp hm huniq
    unfold voucher_value
    rw [hlv]
  · intro q w hq hqm
    have heq := table_match_unique (upperStr code) (q, w) (p, v) hq hp hqm hm
    injection heq with h1 h2
    exact h1 ▸ Nat.le_refl _
  · unfold voucher_value
    rw [lookupVal_of_no_match VOUCHER_VALUES (upperStr code) hnone]
  · rfl
  · rfl
  · rfl
  · rfl

/-- Witness for C8: the SVH prefix resolves SVH1234AB to "4000", and a
code matching no table prefix resolves to the "Unknown" sentinel. -/
theorem C8_value_lookup_and_scenario_witness :
    voucher_value "SVH1234AB" = toString 4000 ∧ voucher_value "ZZZZZ" = "Unknown" :=
  ⟨((C8_value_lookup_and_scenario "SVH1234AB" "SVH" 4000).1 (by decide) (by decide)).1,
    (C8_value_lookup_and_scenario "ZZZZZ" "SVH" 4000).2.1 (by
      intro q w hq
      simp only [VOUCHER_VALUES, List.mem_cons, List.not_mem_nil, or_false] at hq
      rcases hq with h | h | h | h | h | h <;>
        · injection h with h1 h2
          subst h1
          decide)⟩

end SheinBot
